import Mathlib

/-!
Shallow embedding of the OpenStack client and session layer of
`main.py` (class `OpenStackAPI` and the associate-floating-IP workflow).

HTTP traffic is modelled by environment records carrying the responses the
remote cloud would return; every embedded operation is a pure function of
its session state and such an environment, returning its Python result
together with the list of mutating requests it issued.  Timestamps are
integers (seconds, UTC); Python truthiness of optional strings is made
explicit by `optTruthy`.
-/

namespace OpenStackBot

/-- Python truthiness of an optional string: `None` and the empty string are
falsy, every other string is truthy. -/
def optTruthy : Option String → Bool
  | none => false
  | some s => !s.isEmpty

/-- One `fixed_ips` entry of a port or interface attachment: a JSON object
that may carry an `ip_address` and a `subnet_id` key. -/
structure FixedIp where
  ip_address : Option String
  subnet_id : Option String
deriving DecidableEq, Repr

/-- A network as returned by `GET /v2.0/networks`; `router_external` is the
`router:external` flag (the code reads it with default `False`). -/
structure Network where
  id : String
  name : String
  router_external : Bool
  status : String
deriving DecidableEq, Repr

/-- A subnet as returned by `GET /v2.0/subnets`; `gateway_ip` is optional
and tested for truthiness by the code. -/
structure Subnet where
  id : String
  network_id : String
  gateway_ip : Option String
deriving DecidableEq, Repr

/-- A router as returned by `GET /v2.0/routers`; `external_gateway_network`
models `external_gateway_info.network_id`, `none` when the
`external_gateway_info` field is absent or null. -/
structure Router where
  id : String
  name : String
  external_gateway_network : Option String
deriving DecidableEq, Repr

/-- An interface attachment as returned by `GET /servers/id/os-interface`:
a port id, the owning network id (read with `.get`, hence optional) and the
list of fixed-IP entries. -/
structure Interface where
  port_id : String
  net_id : Option String
  fixed_ips : List FixedIp
deriving DecidableEq, Repr

/-- The IPv4 test of `get_suitable_interface_for_floating_ip`: the string
contains a dot character and no colon character. -/
def isIPv4Str (s : String) : Bool :=
  s.data.contains '.' && !s.data.contains ':'

/-- An interface has an IPv4 entry when some `fixed_ips` element, with its
`ip_address` read with default empty string, passes the IPv4 test.  This is
exactly the inner loop of the first pass of
`get_suitable_interface_for_floating_ip`. -/
def hasIPv4 (i : Interface) : Bool :=
  i.fixed_ips.any fun f => isIPv4Str (f.ip_address.getD "")

/-- The reachability test of the first pass: `interface.get('net_id')` is a
member of the external-network id list (`None in list` is false). -/
def netReachable (i : Interface) (ext : List String) : Bool :=
  match i.net_id with
  | some nid => ext.contains nid
  | none => false

/-- `OpenStackAPI.get_suitable_interface_for_floating_ip`, parameterised by
the interface listing (`none` models a failed listing) and the
external-network id list.  First pass: first interface with an IPv4 entry
whose network is in the external list; second pass: first interface with an
IPv4 entry; else `none`. -/
def get_suitable_interface_for_floating_ip
    (interfaces : Option (List Interface)) (ext : List String) :
    Option Interface :=
  match interfaces with
  | none => none
  | some ifs =>
    if ifs.isEmpty then none
    else
      match ifs.find? (fun i => hasIPv4 i && netReachable i ext) with
      | some i => some i
      | none => ifs.find? hasIPv4

/-- Modelled from the spec wording of `eligibleInterfaceForFloatingIp`:
prefer the first interface with an IPv4 fixed-IP entry whose owning network
is externally reachable; else fall back to the first interface with an IPv4
fixed-IP entry; else absent. -/
def eligibleInterfaceForFloatingIpSpec
    (ifs : List Interface) (ext : List String) : Option Interface :=
  match ifs.find? (fun i => hasIPv4 i && netReachable i ext) with
  | some i => some i
  | none => ifs.find? hasIPv4

/-- Insertion step of the `connected_networks` accumulation in
`find_networks_with_external_gateway` (membership test, then add). -/
def insertIfAbsent (l : List String) (x : String) : List String :=
  if l.contains x then l else l ++ [x]

/-- The `connected_networks` loop: every subnet with a truthy `gateway_ip`
contributes its `network_id`, deduplicated. -/
def connectedNetworks (ss : List Subnet) : List String :=
  ss.foldl (fun acc s => if optTruthy s.gateway_ip then insertIfAbsent acc s.network_id else acc) []

/-- `OpenStackAPI.find_networks_with_external_gateway`, parameterised by the
router and subnet listings (`none` models a failed listing).  Returns `[]`
when a listing failed or is empty, or when no router has a truthy
external-gateway network id; otherwise the deduplicated owning networks of
all subnets with a truthy gateway IP. -/
def find_networks_with_external_gateway
    (routers : Option (List Router)) (subnets : Option (List Subnet)) :
    List String :=
  match routers, subnets with
  | some rs, some ss =>
    if rs.isEmpty || ss.isEmpty then []
    else
      let external_routers := rs.filter fun r => optTruthy r.external_gateway_network
      if external_routers.isEmpty then []
      else connectedNetworks ss
  | _, _ => []

/-- `OpenStackAPI.get_networks_for_fixed_ip`, parameterised by the network
listing (`none` models a failed listing).  Filters out networks with the
`router:external` flag; when the filter leaves nothing, falls back to the
full listing. -/
def get_networks_for_fixed_ip (networks : Option (List Network)) : List Network :=
  match networks with
  | none => []
  | some nets =>
    if nets.isEmpty then []
    else
      let available := nets.filter fun n => !n.router_external
      if available.isEmpty then nets else available

/-- The `available_subnets` accumulation of `select_network_for_fixed_ip`:
for each offered network, every subnet whose `network_id` equals the
network id, paired with the network, in listing order. -/
def available_subnets (networks : List Network) (subnets : List Subnet) :
    List (Subnet × Network) :=
  networks.foldl
    (fun acc n => acc ++ (subnets.filter fun s => s.network_id == n.id).map fun s => (s, n)) []

/-! ### Session and token management -/

/-- The mutable session state of `OpenStackAPI.__init__`: token, expiry and
service catalog (a Python dict, modelled as an association list with dict
update semantics). -/
structure Session where
  token : Option String
  token_expires : Option Int
  service_catalog : List (String × String)
deriving DecidableEq, Repr

/-- The fresh session built by `__init__`. -/
def initSession : Session := ⟨none, none, []⟩

/-- Lookup in a Python dict modelled as an association list. -/
def dictGet (d : List (String × String)) (k : String) : Option String :=
  (d.find? fun p => p.1 == k).map fun p => p.2

/-- Python dict assignment `d[k] = v`: overwrite in place when the key
exists (keys are unique by construction), append otherwise. -/
def dictInsert : List (String × String) → String → String → List (String × String)
  | [], k, v => [(k, v)]
  | p :: rest, k, v => if p.1 == k then (k, v) :: rest else p :: dictInsert rest k v

/-- One service entry of the identity catalog: a type and its endpoints,
each endpoint carrying an interface label and a URL. -/
structure Endpoint where
  iface : String
  url : String
deriving DecidableEq, Repr

/-- A service of the token catalog. -/
structure CatalogService where
  type : String
  endpoints : List Endpoint
deriving DecidableEq, Repr

/-- The identity response seen by `authenticate`: HTTP status, the
`X-Subject-Token` header (`headers.get`, hence optional), the parsed
`expires_at` instant (`none` models a body whose JSON decoding or
`expires_at` access raises, which in the code happens after the token
header was already stored), and the catalog. -/
structure AuthResponse where
  status_code : Nat
  subject_token : Option String
  expires_at : Option Int
  catalog : List CatalogService
deriving DecidableEq, Repr

/-- The first endpoint of a service whose interface label is `public`,
if any (the inner loop of the catalog scan, with its `break`). -/
def firstPublicUrl (es : List Endpoint) : Option String :=
  (es.find? fun e => e.iface == "public").map fun e => e.url

/-- The catalog scan of `authenticate`: for each service in order, when it
has a public endpoint, assign its URL to the service type in the dict. -/
def storeCatalog (cat : List CatalogService) (d : List (String × String)) :
    List (String × String) :=
  cat.foldl
    (fun acc svc =>
      match firstPublicUrl svc.endpoints with
      | some u => dictInsert acc svc.type u
      | none => acc) d

/-- The URL the scan leaves for a service type: the first public endpoint
URL of the last catalog service of that type that has one. -/
def catLookup : List CatalogService → String → Option String
  | [], _ => none
  | svc :: rest, t =>
    match catLookup rest t with
    | some u => some u
    | none => if svc.type == t then firstPublicUrl svc.endpoints else none

/-- `OpenStackAPI.authenticate`, parameterised by the identity response
(`none` models a transport fault raised by `requests.post`).  On a 201 the
token header is stored first; a body that fails to parse then aborts with
the token already replaced; otherwise expiry and catalog are stored and the
call returns `true`.  Any other status, or a transport fault, returns
`false` with the session untouched. -/
def authenticate (s : Session) (r : Option AuthResponse) : Session × Bool :=
  match r with
  | none => (s, false)
  | some r =>
    if r.status_code == 201 then
      let s1 : Session := { s with token := r.subject_token }
      match r.expires_at with
      | none => (s1, false)
      | some exp =>
        ({ s1 with
            token_expires := some exp,
            service_catalog := storeCatalog r.catalog s.service_catalog }, true)
    else (s, false)

/-- `OpenStackAPI.is_token_valid`: a truthy token and a stored expiry, and
`now` strictly before expiry minus five minutes (300 seconds). -/
def is_token_valid (s : Session) (now : Int) : Bool :=
  if !optTruthy s.token || s.token_expires.isNone then false
  else
    match s.token_expires with
    | some exp => decide (now < exp - 300)
    | none => false

/-- The header dict `get_headers` builds from the current token. -/
def headersOf (s : Session) : List (String × Option String) :=
  [("X-Auth-Token", s.token), ("Content-Type", some "application/json")]

/-- `OpenStackAPI.get_headers`: reuse the cached token while
`is_token_valid`; otherwise run `authenticate` against the supplied
identity response and return `none` when it fails, else headers built from
the freshly stored token. -/
def get_headers (s : Session) (now : Int) (r : Option AuthResponse) :
    Session × Option (List (String × Option String)) :=
  if is_token_valid s now then (s, some (headersOf s))
  else
    match authenticate s r with
    | (s1, true) => (s1, some (headersOf s1))
    | (s1, false) => (s1, none)

/-! ### Port fixed-IP mutation and the associate workflow -/

/-- The mutating or reading REST calls the embedded operations can issue;
traces of these record what each operation sent to the cloud. -/
inductive Request where
  | getPort (port_id : String)
  | putPort (port_id : String) (fixed_ips : List FixedIp)
  | deletePort (port_id : String)
  | postPort
  | postInterface (server_id : String) (net_id : String)
  | deleteInterface (server_id : String) (port_id : String)
  | putFloating (ip_id : String) (port_id : String)
deriving DecidableEq, Repr

/-- The HTTP environment of one fixed-IP mutation: whether `get_headers`
yields headers, the `network` catalog entry, the status and `fixed_ips`
body of the `GET /v2.0/ports/id` response, and the status of the
`PUT /v2.0/ports/id` response. -/
structure PortEnv where
  headers_ok : Bool
  network_url : Option String
  get_port_status : Nat
  port_fixed_ips : List FixedIp
  put_status : Nat
deriving DecidableEq, Repr

/-- `OpenStackAPI.remove_fixed_ip_from_interface`: after the header and
catalog guards, read the port, drop every `fixed_ips` entry whose
`ip_address` equals the given address, fail without writing when the length
is unchanged, else PUT the replacement list back to the same port and
succeed on a 200 or 202. -/
def remove_fixed_ip_from_interface (env : PortEnv) (port_id ip_address : String) :
    Bool × List Request :=
  if !env.headers_ok then (false, [])
  else
    match env.network_url with
    | none => (false, [])
    | some _ =>
      if env.get_port_status ≠ 200 then (false, [Request.getPort port_id])
      else
        let current := env.port_fixed_ips
        let new_fixed_ips := current.filter fun e => !(e.ip_address == some ip_address)
        if new_fixed_ips.length == current.length then (false, [Request.getPort port_id])
        else
          let trace := [Request.getPort port_id, Request.putPort port_id new_fixed_ips]
          if env.put_status == 200 || env.put_status == 202 then (true, trace)
          else (false, trace)

/-- `OpenStackAPI.add_fixed_ip_to_interface`: after the same guards, read
the port, append a single entry carrying only the subnet id to the current
`fixed_ips`, and PUT the full replacement list back to the same port. -/
def add_fixed_ip_to_interface (env : PortEnv) (port_id subnet_id : String) :
    Bool × List Request :=
  if !env.headers_ok then (false, [])
  else
    match env.network_url with
    | none => (false, [])
    | some _ =>
      if env.get_port_status ≠ 200 then (false, [Request.getPort port_id])
      else
        let new_fixed_ips := env.port_fixed_ips ++ [⟨none, some subnet_id⟩]
        let trace := [Request.getPort port_id, Request.putPort port_id new_fixed_ips]
        if env.put_status == 200 || env.put_status == 202 then (true, trace)
        else (false, trace)

/-- Outcome of the `do_associate_ip` workflow step, one constructor per
terminal message of the handler. -/
inductive AssocOutcome where
  | invalidOp
  | noSuitableInterface
  | associateFailed
  | success (port_id : String)
deriving DecidableEq, Repr

/-- The environment of one `do_associate_ip` run: the resolution result of
`get_suitable_interface_for_floating_ip`, the externally reachable network
ids, the per-network result of `attach_interface`, and whether the final
`associate_floating_ip` PUT succeeds. -/
structure AssocEnv where
  suitable : Option Interface
  external_networks : List String
  attach_result : String → Option Interface
  associate_ok : Bool

/-- The attach loop of `do_associate_ip`: try each external network in
order, recording a `postInterface` request per attempt, and stop at the
first attach that returns an interface. -/
def tryAttach (server_id : String) (att : String → Option Interface) :
    List String → Option Interface × List Request
  | [] => (none, [])
  | n :: rest =>
    match att n with
    | some i => (some i, [Request.postInterface server_id n])
    | none =>
      ((tryAttach server_id att rest).1,
        Request.postInterface server_id n :: (tryAttach server_id att rest).2)

/-- The association tail of `do_associate_ip`: one `putFloating` request to
the chosen port, outcome decided by the PUT result. -/
def runAssociate (env : AssocEnv) (ip_id : String) (i : Interface)
    (tr : List Request) : AssocOutcome × List Request :=
  if env.associate_ok then (.success i.port_id, tr ++ [Request.putFloating ip_id i.port_id])
  else (.associateFailed, tr ++ [Request.putFloating ip_id i.port_id])

/-- `do_associate_ip`: fail fast on missing stored ids; resolve a suitable
interface; when resolution yields none and reachable networks exist, run
the attach loop and use its result directly as the interface; when still
none, report the no-suitable-interface outcome without associating; else
associate the floating IP with the interface port. -/
def do_associate_ip (ip_id server_id : Option String) (env : AssocEnv) :
    AssocOutcome × List Request :=
  match ip_id, server_id with
  | some ipid, some sid =>
    match env.suitable with
    | some i => runAssociate env ipid i []
    | none =>
      match (tryAttach sid env.attach_result env.external_networks).1 with
      | some i => runAssociate env ipid i (tryAttach sid env.attach_result env.external_networks).2
      | none => (.noSuitableInterface, (tryAttach sid env.attach_result env.external_networks).2)
  | _, _ => (.invalidOp, [])

/-! ### Helper lemmas -/

theorem mem_insertIfAbsent (l : List String) (x y : String) :
    x ∈ insertIfAbsent l y ↔ x ∈ l ∨ x = y := by
  unfold insertIfAbsent
  by_cases h : l.contains y = true
  · rw [if_pos h]
    have hy : y ∈ l := List.elem_iff.mp h
    constructor
    · exact Or.inl
    · rintro (hx | rfl)
      · exact hx
      · exact hy
  · rw [if_neg h]
    simp [List.mem_append]

theorem mem_connectedNetworks_foldl (ss : List Subnet) (acc : List String) (x : String) :
    (x ∈ ss.foldl
        (fun acc s => if optTruthy s.gateway_ip then insertIfAbsent acc s.network_id else acc)
        acc) ↔
      x ∈ acc ∨ ∃ s ∈ ss, optTruthy s.gateway_ip = true ∧ s.network_id = x := by
  induction ss generalizing acc with
  | nil => simp
  | cons a l ih =>
    rw [List.foldl_cons, ih]
    by_cases h : optTruthy a.gateway_ip = true
    · rw [if_pos h, mem_insertIfAbsent]
      constructor
      · rintro ((hx | rfl) | ⟨s, hs, hg, hn⟩)
        · exact Or.inl hx
        · exact Or.inr ⟨a, List.mem_cons_self a l, h, rfl⟩
        · exact Or.inr ⟨s, List.mem_cons_of_mem a hs, hg, hn⟩
      · rintro (hx | ⟨s, hs, hg, hn⟩)
        · exact Or.inl (Or.inl hx)
        · rcases List.mem_cons.mp hs with rfl | hs2
          · exact Or.inl (Or.inr hn.symm)
          · exact Or.inr ⟨s, hs2, hg, hn⟩
    · rw [if_neg h]
      constructor
      · rintro (hx | ⟨s, hs, hg, hn⟩)
        · exact Or.inl hx
        · exact Or.inr ⟨s, List.mem_cons_of_mem a hs, hg, hn⟩
      · rintro (hx | ⟨s, hs, hg, hn⟩)
        · exact Or.inl hx
        · rcases List.mem_cons.mp hs with rfl | hs2
          · exact absurd hg h
          · exact Or.inr ⟨s, hs2, hg, hn⟩

theorem mem_connectedNetworks (ss : List Subnet) (x : String) :
    x ∈ connectedNetworks ss ↔
      ∃ s ∈ ss, optTruthy s.gateway_ip = true ∧ s.network_id = x := by
  unfold connectedNetworks
  rw [mem_connectedNetworks_foldl]
  simp

/-! ### C5: eligible interface for floating IP -/

/-- **C5.** For every interface listing and every reachable-network set,
`get_suitable_interface_for_floating_ip` returns the first interface with
an IPv4 fixed-IP entry whose owning network is reachable; when none
qualifies on both counts, the first interface with an IPv4 entry; when no
interface has an IPv4 entry (in particular when there are none at all),
absent — the behaviour `eligibleInterfaceForFloatingIpSpec` transcribes
from the specification. -/
theorem suitable_interface_matches_spec (ifs : List Interface) (ext : List String) :
    get_suitable_interface_for_floating_ip (some ifs) ext =
      eligibleInterfaceForFloatingIpSpec ifs ext ∧
    ((∀ i ∈ ifs, hasIPv4 i = false) →
      get_suitable_interface_for_floating_ip (some ifs) ext = none) := by
  have hcode : get_suitable_interface_for_floating_ip (some ifs) ext =
      eligibleInterfaceForFloatingIpSpec ifs ext := by
    cases ifs with
    | nil => rfl
    | cons a l => rfl
  refine ⟨hcode, ?_⟩
  intro h
  rw [hcode]
  have h1 : ifs.find? (fun i => hasIPv4 i && netReachable i ext) = none :=
    List.find?_eq_none.mpr (fun i hi => by simp [h i hi])
  have h2 : ifs.find? (fun i => hasIPv4 i) = none :=
    List.find?_eq_none.mpr (fun i hi => by simp [h i hi])
  unfold eligibleInterfaceForFloatingIpSpec
  rw [h1, h2]

theorem suitable_interface_matches_spec_witness :
    get_suitable_interface_for_floating_ip
        (some [⟨"p1", some "n1", [⟨some "fe80::1", some "s1"⟩]⟩]) ["n1"] = none :=
  (suitable_interface_matches_spec [⟨"p1", some "n1", [⟨some "fe80::1", some "s1"⟩]⟩] ["n1"]).2
    (by decide)

/-! ### C6: externally reachable networks -/

/-- **C6.** Whenever some router has a truthy external-gateway network id,
`find_networks_with_external_gateway` contains exactly the owning networks
of the subnets with a truthy gateway IP (so a subnet on network N2 is
included whether or not N2 is the gateway network N1 of the router); when
no router has an external gateway, or a listing failed, the result is
empty. -/
theorem external_gateway_networks_spec (rs : List Router) (ss : List Subnet) :
    ((∃ r ∈ rs, optTruthy r.external_gateway_network = true) →
      ∀ x, x ∈ find_networks_with_external_gateway (some rs) (some ss) ↔
        ∃ s ∈ ss, optTruthy s.gateway_ip = true ∧ s.network_id = x) ∧
    ((∀ r ∈ rs, optTruthy r.external_gateway_network = false) →
      find_networks_with_external_gateway (some rs) (some ss) = []) ∧
    (∀ so, find_networks_with_external_gateway none so = []) ∧
    (∀ ro, find_networks_with_external_gateway ro none = []) := by
  refine ⟨?_, ?_, ?_, ?_⟩
  · rintro ⟨r, hr, hg⟩ x
    have hrs : rs.isEmpty = false := List.isEmpty_eq_false.mpr (List.ne_nil_of_mem hr)
    cases hss : ss.isEmpty with
    | true =>
      have h0 : ss = [] := List.isEmpty_eq_true.mp hss
      subst h0
      simp [find_networks_with_external_gateway, hrs]
    | false =>
      have hfil : (rs.filter fun r => optTruthy r.external_gateway_network).isEmpty = false :=
        List.isEmpty_eq_false.mpr (List.ne_nil_of_mem (List.mem_filter.mpr ⟨hr, hg⟩))
      simp [find_networks_with_external_gateway, hrs, hss, hfil, mem_connectedNetworks]
  · intro h
    unfold find_networks_with_external_gateway
    by_cases hrs : rs.isEmpty
    · simp [hrs]
    · have hfil : rs.filter (fun r => optTruthy r.external_gateway_network) = [] :=
        List.filter_eq_nil_iff.mpr (fun r hr => by simp [h r hr])
      simp [hfil, hrs]
  · intro so
    cases so <;> rfl
  · intro ro
    cases ro <;> rfl

theorem external_gateway_networks_spec_witness :
    "N2" ∈ find_networks_with_external_gateway
        (some [⟨"r1", "edge", some "N1"⟩]) (some [⟨"s1", "N2", some "10.0.0.1"⟩]) :=
  ((external_gateway_networks_spec [⟨"r1", "edge", some "N1"⟩]
      [⟨"s1", "N2", some "10.0.0.1"⟩]).1
    ⟨⟨"r1", "edge", some "N1"⟩, by decide, by decide⟩ "N2").mpr
    ⟨⟨"s1", "N2", some "10.0.0.1"⟩, by decide, by decide, rfl⟩

/-! ### C3: subnets offered for adding a fixed IP -/

theorem mem_available_subnets_foldl (networks : List Network) (subnets : List Subnet)
    (acc : List (Subnet × Network)) (ps : Subnet) (pn : Network) :
    ((ps, pn) ∈ networks.foldl
        (fun acc n => acc ++ (subnets.filter fun s => s.network_id == n.id).map fun s => (s, n))
        acc) ↔
      (ps, pn) ∈ acc ∨ pn ∈ networks ∧ ps ∈ subnets ∧ ps.network_id = pn.id := by
  induction networks generalizing acc with
  | nil => simp
  | cons n rest ih =>
    rw [List.foldl_cons, ih]
    simp only [List.mem_append, List.mem_map, List.mem_filter, List.mem_cons, Prod.mk.injEq]
    constructor
    · rintro ((hp | ⟨s, ⟨hs, hid⟩, rfl, rfl⟩) | ⟨h2, h1, hid⟩)
      · exact Or.inl hp
      · exact Or.inr ⟨Or.inl rfl, hs, by simpa using hid⟩
      · exact Or.inr ⟨Or.inr h2, h1, hid⟩
    · rintro (hp | ⟨(rfl | h2), h1, hid⟩)
      · exact Or.inl (Or.inl hp)
      · exact Or.inl (Or.inr ⟨ps, ⟨h1, by simpa using hid⟩, rfl, rfl⟩)
      · exact Or.inr ⟨h2, h1, hid⟩

/-- **C3 (amended).** When at least one listed network is non-external, the
offered networks are exactly the non-external ones and the offered
subnet-network pairs are exactly the pairs of a non-external listed network
with a subnet it owns; the original claim fails because, when every listed
network is external, the code falls back to offering all networks
(`fixed_ip_networks_external_fallback_cex`). -/
theorem fixed_ip_subnets_cross_product (nets : List Network) (subnets : List Subnet)
    (h : ∃ n ∈ nets, n.router_external = false) :
    get_networks_for_fixed_ip (some nets) = nets.filter (fun n => !n.router_external) ∧
    (∀ ps pn, ((ps, pn) ∈ available_subnets (get_networks_for_fixed_ip (some nets)) subnets ↔
      (pn ∈ nets ∧ pn.router_external = false) ∧ ps ∈ subnets ∧ ps.network_id = pn.id)) := by
  obtain ⟨n0, hn0, hext⟩ := h
  have hne : nets.isEmpty = false := List.isEmpty_eq_false.mpr (List.ne_nil_of_mem hn0)
  have hfil : (nets.filter fun n => !n.router_external).isEmpty = false :=
    List.isEmpty_eq_false.mpr (List.ne_nil_of_mem (List.mem_filter.mpr ⟨hn0, by simp [hext]⟩))
  have h1 : get_networks_for_fixed_ip (some nets) = nets.filter (fun n => !n.router_external) := by
    simp only [get_networks_for_fixed_ip, hne, Bool.false_eq_true, if_false, hfil]
  refine ⟨h1, ?_⟩
  intro ps pn
  rw [h1]
  unfold available_subnets
  rw [mem_available_subnets_foldl]
  simp [List.mem_filter]

theorem fixed_ip_subnets_cross_product_witness :
    ((⟨"s1", "n1", none⟩ : Subnet), (⟨"n1", "private", false, "ACTIVE"⟩ : Network)) ∈
      available_subnets
        (get_networks_for_fixed_ip (some [⟨"n1", "private", false, "ACTIVE"⟩]))
        [⟨"s1", "n1", none⟩] :=
  ((fixed_ip_subnets_cross_product [⟨"n1", "private", false, "ACTIVE"⟩] [⟨"s1", "n1", none⟩]
      ⟨⟨"n1", "private", false, "ACTIVE"⟩, by decide, rfl⟩).2
    ⟨"s1", "n1", none⟩ ⟨"n1", "private", false, "ACTIVE"⟩).mpr
    ⟨⟨by decide, rfl⟩, by decide, rfl⟩

/-- **C3 (counterexample).** With a single listed network carrying the
external flag, the non-external filter leaves nothing, the code falls back
to all networks, and the external network (with its subnet) is offered for
adding a fixed IP — contradicting the claim that a network with the
external flag set never appears. -/
theorem fixed_ip_networks_external_fallback_cex :
    (⟨"n1", "public", true, "ACTIVE"⟩ : Network).router_external = true ∧
    get_networks_for_fixed_ip (some [⟨"n1", "public", true, "ACTIVE"⟩]) =
      [⟨"n1", "public", true, "ACTIVE"⟩] ∧
    available_subnets (get_networks_for_fixed_ip (some [⟨"n1", "public", true, "ACTIVE"⟩]))
        [⟨"s1", "n1", some "10.0.0.1"⟩] =
      [(⟨"s1", "n1", some "10.0.0.1"⟩, ⟨"n1", "public", true, "ACTIVE"⟩)] := by
  refine ⟨rfl, rfl, ?_⟩
  rfl

/-! ### C2: remove-fixed-IP read-modify-write -/

/-- **C2.** For a port whose fixed-IP list is the two entries with
addresses A and B, removing B issues the PUT with replacement list
containing only the A entry and succeeds; removing an address C present on
neither entry returns the failure outcome after only the GET — no PUT is
issued, so the remote list is left unchanged. -/
theorem remove_fixed_ip_read_modify_write (u port a b c : String) (eA eB : FixedIp)
    (hA : eA.ip_address = some a) (hB : eB.ip_address = some b)
    (hab : a ≠ b) (hca : c ≠ a) (hcb : c ≠ b) :
    remove_fixed_ip_from_interface ⟨true, some u, 200, [eA, eB], 200⟩ port b =
      (true, [Request.getPort port, Request.putPort port [eA]]) ∧
    remove_fixed_ip_from_interface ⟨true, some u, 200, [eA, eB], 200⟩ port c =
      (false, [Request.getPort port]) := by
  have hAb : (eA.ip_address == some b) = false := by
    simp [hA]
    exact hab
  have hBb : (eB.ip_address == some b) = true := by simp [hB]
  have hAc : (eA.ip_address == some c) = false := by
    simp [hA]
    exact fun h => hca h.symm
  have hBc : (eB.ip_address == some c) = false := by
    simp [hB]
    exact fun h => hcb h.symm
  constructor
  · simp [remove_fixed_ip_from_interface, List.filter_cons, hAb, hBb]
  · simp [remove_fixed_ip_from_interface, List.filter_cons, hAc, hBc]

theorem remove_fixed_ip_read_modify_write_witness :
    remove_fixed_ip_from_interface
        ⟨true, some "http://net", 200,
          [⟨some "10.0.0.1", some "s1"⟩, ⟨some "10.0.0.2", some "s1"⟩], 200⟩ "p1" "10.0.0.2" =
      (true, [Request.getPort "p1", Request.putPort "p1" [⟨some "10.0.0.1", some "s1"⟩]]) ∧
    remove_fixed_ip_from_interface
        ⟨true, some "http://net", 200,
          [⟨some "10.0.0.1", some "s1"⟩, ⟨some "10.0.0.2", some "s1"⟩], 200⟩ "p1" "10.0.0.3" =
      (false, [Request.getPort "p1"]) :=
  remove_fixed_ip_read_modify_write "http://net" "p1" "10.0.0.1" "10.0.0.2" "10.0.0.3"
    ⟨some "10.0.0.1", some "s1"⟩ ⟨some "10.0.0.2", some "s1"⟩ rfl rfl
    (by decide) (by decide) (by decide)

/-! ### C8: add-fixed-IP targets the existing port -/

/-- **C8.** Every request `add_fixed_ip_to_interface` issues is either the
GET of the given port or the PUT writing, to that same port id, the full
replacement list consisting of the current entries unchanged and in order
followed by one entry carrying only the chosen subnet id; in particular no
port-creation or interface-attachment request is ever issued. -/
theorem add_fixed_ip_targets_existing_port (env : PortEnv) (port_id subnet_id : String) :
    ∀ req ∈ (add_fixed_ip_to_interface env port_id subnet_id).2,
      req = Request.getPort port_id ∨
        req = Request.putPort port_id (env.port_fixed_ips ++ [⟨none, some subnet_id⟩]) := by
  intro req hreq
  simp only [add_fixed_ip_to_interface] at hreq
  split at hreq
  · simp at hreq
  · split at hreq
    · simp at hreq
    · split at hreq
      · simp at hreq
        exact Or.inl hreq
      · split at hreq <;>
          (simp at hreq; rcases hreq with rfl | rfl
           · exact Or.inl rfl
           · exact Or.inr rfl)

theorem add_fixed_ip_targets_existing_port_witness :
    Request.getPort "p1" = Request.getPort "p1" ∨
      Request.getPort "p1" =
        Request.putPort "p1"
          ((⟨true, some "http://net", 200, [⟨some "10.0.0.1", some "s1"⟩], 200⟩ :
              PortEnv).port_fixed_ips ++ [⟨none, some "s2"⟩]) :=
  add_fixed_ip_targets_existing_port
    ⟨true, some "http://net", 200, [⟨some "10.0.0.1", some "s1"⟩], 200⟩ "p1" "s2"
    (Request.getPort "p1") (by decide)

/-! ### C10: removal drops matching entries -/

theorem length_filter_not_beq (l : List FixedIp) (ip : String) :
    (l.filter fun e => !(e.ip_address == some ip)).length +
      l.countP (fun e => e.ip_address == some ip) = l.length := by
  induction l with
  | nil => rfl
  | cons e rest ih =>
    cases h : e.ip_address == some ip with
    | true =>
      simp [List.filter_cons, List.countP_cons, h]
      omega
    | false =>
      simp [List.filter_cons, List.countP_cons, h]
      omega

/-- **C10 (amended).** `remove_fixed_ip_from_interface` never issues a
port-deletion or interface-detachment request (every request is the GET of
the given port or the PUT of the filtered replacement list to that same
port), and when the given address occurs on exactly one entry the
replacement list written back has length exactly one less than the
original; the original claim fails when the same address occurs on more
than one entry, since the filter drops every match
(`remove_fixed_ip_duplicate_address_cex`). -/
theorem remove_fixed_ip_removes_matching_entries (env : PortEnv) (port_id ip : String) :
    (∀ req ∈ (remove_fixed_ip_from_interface env port_id ip).2,
      req = Request.getPort port_id ∨
        req = Request.putPort port_id
          (env.port_fixed_ips.filter fun e => !(e.ip_address == some ip))) ∧
    (env.headers_ok = true → env.network_url.isSome = true → env.get_port_status = 200 →
      env.port_fixed_ips.countP (fun e => e.ip_address == some ip) = 1 →
      (remove_fixed_ip_from_interface env port_id ip).2 =
        [Request.getPort port_id,
          Request.putPort port_id
            (env.port_fixed_ips.filter fun e => !(e.ip_address == some ip))] ∧
      (env.port_fixed_ips.filter fun e => !(e.ip_address == some ip)).length + 1 =
        env.port_fixed_ips.length) := by
  constructor
  · intro req hreq
    simp only [remove_fixed_ip_from_interface] at hreq
    split at hreq
    · simp at hreq
    · split at hreq
      · simp at hreq
      · split at hreq
        · simp at hreq
          exact Or.inl hreq
        · split at hreq
          · simp at hreq
            exact Or.inl hreq
          · split at hreq <;>
              (simp at hreq; rcases hreq with rfl | rfl
               · exact Or.inl rfl
               · exact Or.inr rfl)
  · intro hh hn hg hc
    obtain ⟨url, hurl⟩ := Option.isSome_iff_exists.mp hn
    have hlen : (env.port_fixed_ips.filter fun e => !(e.ip_address == some ip)).length + 1 =
        env.port_fixed_ips.length := by
      have := length_filter_not_beq env.port_fixed_ips ip
      omega
    have hne : ((env.port_fixed_ips.filter fun e => !(e.ip_address == some ip)).length ==
        env.port_fixed_ips.length) = false :=
      beq_false_of_ne (by omega)
    refine ⟨?_, hlen⟩
    simp only [remove_fixed_ip_from_interface, hh, hurl, hg, hne, Bool.not_true,
      Bool.false_eq_true, if_false, ne_eq, not_true_eq_false]
    split <;> rfl

theorem remove_fixed_ip_removes_matching_entries_witness :
    (remove_fixed_ip_from_interface
        ⟨true, some "http://net", 200,
          [⟨some "10.0.0.1", some "s1"⟩, ⟨some "10.0.0.2", some "s1"⟩], 200⟩ "p1" "10.0.0.2").2 =
      [Request.getPort "p1",
        Request.putPort "p1"
          (([⟨some "10.0.0.1", some "s1"⟩, ⟨some "10.0.0.2", some "s1"⟩] :
              List FixedIp).filter fun e => !(e.ip_address == some "10.0.0.2"))] ∧
    (([⟨some "10.0.0.1", some "s1"⟩, ⟨some "10.0.0.2", some "s1"⟩] :
        List FixedIp).filter fun e => !(e.ip_address == some "10.0.0.2")).length + 1 =
      ([⟨some "10.0.0.1", some "s1"⟩, ⟨some "10.0.0.2", some "s1"⟩] : List FixedIp).length :=
  (remove_fixed_ip_removes_matching_entries
      ⟨true, some "http://net", 200,
        [⟨some "10.0.0.1", some "s1"⟩, ⟨some "10.0.0.2", some "s1"⟩], 200⟩ "p1" "10.0.0.2").2
    rfl rfl rfl (by decide)

/-- **C10 (counterexample).** A port whose fixed-IP list holds the same
address on two entries: the removal succeeds and writes back the empty
list, of length two less than the original, refuting the claim that the
replacement list always has length exactly one less. -/
theorem remove_fixed_ip_duplicate_address_cex :
    remove_fixed_ip_from_interface
        ⟨true, some "http://net", 200,
          [⟨some "10.0.0.2", some "s1"⟩, ⟨some "10.0.0.2", some "s2"⟩], 200⟩ "p1" "10.0.0.2" =
      (true, [Request.getPort "p1", Request.putPort "p1" []]) ∧
    ([] : List FixedIp).length ≠
      [(⟨some "10.0.0.2", some "s1"⟩ : FixedIp), ⟨some "10.0.0.2", some "s2"⟩].length - 1 := by
  exact ⟨by decide, by decide⟩

/-! ### Dict and catalog lemmas -/

theorem dictGet_cons (p : String × String) (rest : List (String × String)) (k : String) :
    dictGet (p :: rest) k = if p.1 = k then some p.2 else dictGet rest k := by
  by_cases h : p.1 = k
  · simp [dictGet, List.find?_cons_of_pos, h]
  · rw [if_neg h]
    unfold dictGet
    rw [List.find?_cons_of_neg]
    simp [h]

theorem dictGet_dictInsert (d : List (String × String)) (k v k' : String) :
    dictGet (dictInsert d k v) k' = if k' = k then some v else dictGet d k' := by
  induction d with
  | nil =>
    show dictGet [(k, v)] k' = _
    rw [dictGet_cons]
    by_cases h : k' = k
    · rw [if_pos h.symm, if_pos h]
    · rw [if_neg (fun hh : k = k' => h hh.symm), if_neg h]
  | cons p rest ih =>
    show dictGet (if p.1 == k then (k, v) :: rest else p :: dictInsert rest k v) k' = _
    by_cases hp : p.1 = k
    · rw [if_pos (beq_iff_eq.mpr hp), dictGet_cons, dictGet_cons]
      by_cases h : k' = k
      · rw [if_pos h.symm, if_pos h]
      · have h1 : ¬(k = k') := fun hh => h hh.symm
        have h2 : ¬(p.1 = k') := fun hh => h1 (hp ▸ hh)
        rw [if_neg h1, if_neg h, if_neg h2]
    · rw [if_neg (by simpa using hp), dictGet_cons, ih, dictGet_cons]
      by_cases h : k' = k
      · have h3 : ¬(p.1 = k') := fun hh => hp (hh.trans h)
        rw [if_neg h3, if_pos h, if_pos h]
      · rw [if_neg h, if_neg h]

theorem storeCatalog_cons (svc : CatalogService) (rest : List CatalogService)
    (d : List (String × String)) :
    storeCatalog (svc :: rest) d =
      storeCatalog rest
        (match firstPublicUrl svc.endpoints with
          | some u => dictInsert d svc.type u
          | none => d) := by
  unfold storeCatalog
  rw [List.foldl_cons]

theorem dictGet_storeCatalog (cat : List CatalogService) (d : List (String × String))
    (t : String) :
    dictGet (storeCatalog cat d) t =
      match catLookup cat t with
      | some u => some u
      | none => dictGet d t := by
  induction cat generalizing d with
  | nil => rfl
  | cons svc rest ih =>
    rw [storeCatalog_cons]
    cases hfp : firstPublicUrl svc.endpoints with
    | none =>
      rw [ih]
      cases hcl : catLookup rest t with
      | some u => simp [catLookup, hcl]
      | none =>
        simp only [catLookup, hcl, hfp]
        cases svc.type == t <;> simp
    | some u =>
      rw [ih]
      cases hcl : catLookup rest t with
      | some u2 => simp [catLookup, hcl]
      | none =>
        rw [dictGet_dictInsert]
        simp only [catLookup, hcl, hfp]
        by_cases ht : svc.type = t
        · rw [if_pos ht.symm, if_pos (beq_iff_eq.mpr ht)]
        · rw [if_neg (fun hh => ht hh.symm), if_neg (by simpa using ht)]

/-! ### C4: authenticate extraction -/

/-- **C4.** `authenticate` fails on a transport fault and on any response
whose status is not 201 Created; on a 201 response with a parseable expiry
it succeeds, stores the `X-Subject-Token` header value as the token and the
expiry instant as `token_expires`, and (starting from an empty catalog) the
stored URL for each service type is given by `catLookup`: the first
endpoint labelled public of the (last) catalog service of that type that
has one. -/
theorem authenticate_extracts_token_expiry_catalog (s : Session) (r : AuthResponse)
    (exp : Int) :
    (authenticate s none = (s, false)) ∧
    (r.status_code ≠ 201 → authenticate s (some r) = (s, false)) ∧
    (r.status_code = 201 → r.expires_at = some exp →
      (authenticate s (some r)).2 = true ∧
      (authenticate s (some r)).1.token = r.subject_token ∧
      (authenticate s (some r)).1.token_expires = some exp ∧
      (s.service_catalog = [] →
        ∀ t, dictGet (authenticate s (some r)).1.service_catalog t = catLookup r.catalog t)) := by
  refine ⟨rfl, ?_, ?_⟩
  · intro hne
    simp [authenticate, hne]
  · intro h201 hexp
    simp only [authenticate, h201, beq_self_eq_true, if_true, hexp]
    refine ⟨by trivial, by trivial, by trivial, ?_⟩
    intro hcat t
    simp only [hcat, dictGet_storeCatalog]
    cases catLookup r.catalog t <;> simp [dictGet]

theorem authenticate_extracts_token_expiry_catalog_witness :
    (201 : Nat) = 201 ∧
    (authenticate initSession
        (some ⟨201, some "tok", some 7200,
          [⟨"compute", [⟨"internal", "i1"⟩, ⟨"public", "u1"⟩, ⟨"public", "u2"⟩]⟩]⟩)).2 = true ∧
    dictGet (authenticate initSession
        (some ⟨201, some "tok", some 7200,
          [⟨"compute", [⟨"internal", "i1"⟩, ⟨"public", "u1"⟩, ⟨"public", "u2"⟩]⟩]⟩)).1.service_catalog
      "compute" = some "u1" := by
  refine ⟨rfl, ?_, ?_⟩
  · exact ((authenticate_extracts_token_expiry_catalog initSession
      ⟨201, some "tok", some 7200,
        [⟨"compute", [⟨"internal", "i1"⟩, ⟨"public", "u1"⟩, ⟨"public", "u2"⟩]⟩]⟩ 7200).2.2
      rfl rfl).1
  · rw [((authenticate_extracts_token_expiry_catalog initSession
      ⟨201, some "tok", some 7200,
        [⟨"compute", [⟨"internal", "i1"⟩, ⟨"public", "u1"⟩, ⟨"public", "u2"⟩]⟩]⟩ 7200).2.2
      rfl rfl).2.2.2 rfl "compute"]
    rfl

/-! ### C9: session update on authenticate -/

/-- **C9 (amended).** A transport fault or a non-201 response leaves the
session entirely unchanged; a 201 response whose body fails to parse
replaces the token but keeps the old expiry and catalog; a successful
authenticate replaces token and expiry and updates the catalog per service
type, but catalog entries for service types absent from the new response
survive from the earlier authentication — the session is merged, not
replaced wholesale (`authenticate_catalog_merge_cex`). -/
theorem authenticate_session_update (s : Session) (r : AuthResponse) (exp : Int) :
    (authenticate s none = (s, false)) ∧
    (r.status_code ≠ 201 → authenticate s (some r) = (s, false)) ∧
    (r.status_code = 201 → r.expires_at = none →
      authenticate s (some r) = ({ s with token := r.subject_token }, false)) ∧
    (r.status_code = 201 → r.expires_at = some exp →
      (authenticate s (some r)).1.token = r.subject_token ∧
      (authenticate s (some r)).1.token_expires = some exp ∧
      ∀ t, dictGet (authenticate s (some r)).1.service_catalog t =
        match catLookup r.catalog t with
        | some u => some u
        | none => dictGet s.service_catalog t) := by
  refine ⟨rfl, ?_, ?_, ?_⟩
  · intro hne
    simp [authenticate, hne]
  · intro h201 hexp
    simp [authenticate, h201, hexp]
  · intro h201 hexp
    simp only [authenticate, h201, beq_self_eq_true, if_true, hexp]
    exact ⟨by trivial, by trivial, fun t => dictGet_storeCatalog r.catalog s.service_catalog t⟩

theorem authenticate_session_update_witness :
    authenticate ⟨some "t0", some 500, [("compute", "u0")]⟩ (some ⟨401, none, none, []⟩) =
      (⟨some "t0", some 500, [("compute", "u0")]⟩, false) :=
  (authenticate_session_update ⟨some "t0", some 500, [("compute", "u0")]⟩
      ⟨401, none, none, []⟩ 0).2.1 (by decide)

/-- **C9 (counterexample).** Two successful authenticates in a row: the
first stores catalog URLs for the compute and network service types; the
second response advertises only compute, yet the network entry of the first
session survives in the second — catalog entries from an earlier
authentication outlive a later one, so the session is not replaced
wholesale. -/
theorem authenticate_catalog_merge_cex :
    (authenticate
        (authenticate initSession
          (some ⟨201, some "t1", some 1000,
            [⟨"compute", [⟨"public", "u1"⟩]⟩, ⟨"network", [⟨"public", "u2"⟩]⟩]⟩)).1
        (some ⟨201, some "t2", some 2000, [⟨"compute", [⟨"public", "u3"⟩]⟩]⟩)).2 = true ∧
    (authenticate
        (authenticate initSession
          (some ⟨201, some "t1", some 1000,
            [⟨"compute", [⟨"public", "u1"⟩]⟩, ⟨"network", [⟨"public", "u2"⟩]⟩]⟩)).1
        (some ⟨201, some "t2", some 2000, [⟨"compute", [⟨"public", "u3"⟩]⟩]⟩)).1.service_catalog =
      [("compute", "u3"), ("network", "u2")] ∧
    ([⟨"compute", [⟨"public", "u3"⟩]⟩] : List CatalogService).all
      (fun svc => !(svc.type == "network")) = true := by
  exact ⟨by decide, by decide, by decide⟩

/-! ### C1: token freshness and get_headers -/

/-- **C1 (amended).** `get_headers` returns the cached headers exactly when
a truthy token and an expiry are cached and now is earlier than the expiry
minus five minutes — and then the cached expiry is indeed more than five
minutes in the future; otherwise it runs `authenticate` and returns `none`
on failure or headers built from the freshly stored token on success.  The
freshness invariant of the original claim holds only for cache hits: a
request made right after re-authentication carries whatever expiry the
identity service granted, possibly less than five minutes away
(`get_headers_short_lived_token_cex`). -/
theorem get_headers_cache_and_refresh (s : Session) (now : Int) (r : Option AuthResponse) :
    (is_token_valid s now = true →
      get_headers s now r = (s, some (headersOf s)) ∧
      ∃ exp, s.token_expires = some exp ∧ now < exp - 300) ∧
    (is_token_valid s now = false →
      get_headers s now r =
        ((authenticate s r).1,
          if (authenticate s r).2 then some (headersOf (authenticate s r).1) else none)) := by
  constructor
  · intro hv
    refine ⟨by simp [get_headers, hv], ?_⟩
    unfold is_token_valid at hv
    split at hv
    · exact absurd hv (by simp)
    · split at hv
      · next exp heq => exact ⟨exp, heq, by exact of_decide_eq_true hv⟩
      · exact absurd hv (by simp)
  · intro hv
    unfold get_headers
    rw [hv]
    simp only [Bool.false_eq_true, if_false]
    cases hA : authenticate s r with
    | mk s1 ok =>
      cases ok <;> simp

theorem get_headers_cache_and_refresh_witness :
    get_headers ⟨some "tok", some 1000, []⟩ 0 none =
      (⟨some "tok", some 1000, []⟩, some (headersOf ⟨some "tok", some 1000, []⟩)) :=
  ((get_headers_cache_and_refresh ⟨some "tok", some 1000, []⟩ 0 none).1 (by decide)).1

/-- **C1 (counterexample).** Starting from the fresh session at time 0, the
identity service grants a token expiring at 100 — less than five minutes
away.  `get_headers` re-authenticates and hands out headers for that token
anyway, refuting the claim that headers are only ever obtained for a token
whose expiry is more than five minutes in the future. -/
theorem get_headers_short_lived_token_cex :
    (get_headers initSession 0 (some ⟨201, some "tok", some 100, []⟩)).2 =
      some [("X-Auth-Token", some "tok"), ("Content-Type", some "application/json")] ∧
    (get_headers initSession 0 (some ⟨201, some "tok", some 100, []⟩)).1.token_expires =
      some 100 ∧
    ¬((0 : Int) < 100 - 300) := by
  exact ⟨by decide, by decide, by decide⟩

/-! ### C7: associate floating IP with attach fallback -/

theorem tryAttach_trace (sid : String) (att : String → Option Interface) (ns : List String) :
    ∀ req ∈ (tryAttach sid att ns).2, ∃ n ∈ ns, req = Request.postInterface sid n := by
  induction ns with
  | nil =>
    intro req h
    simp [tryAttach] at h
  | cons n rest ih =>
    intro req h
    unfold tryAttach at h
    cases hA : att n with
    | some i =>
      rw [hA] at h
      simp at h
      exact ⟨n, List.mem_cons_self n rest, h⟩
    | none =>
      rw [hA] at h
      simp only [List.mem_cons] at h
      rcases h with rfl | h
      · exact ⟨n, List.mem_cons_self n rest, rfl⟩
      · obtain ⟨m, hm, rfl⟩ := ih req h
        exact ⟨m, List.mem_cons_of_mem n hm, rfl⟩

theorem tryAttach_head (sid : String) (att : String → Option Interface) (n : String)
    (rest : List String) :
    Request.postInterface sid n ∈ (tryAttach sid att (n :: rest)).2 := by
  unfold tryAttach
  cases att n <;> simp

/-- **C7 (amended).** When resolution yields an interface, `do_associate_ip`
issues exactly the association PUT for that interface port.  When
resolution yields none, it runs the attach loop over the externally
reachable networks; if no attach succeeds it reports the
no-suitable-interface outcome having issued only interface-attach requests
(no association call); if some attach succeeds, the attach result is used
directly — without re-resolving — and the association PUT targets its port.
In particular, whenever resolution yields none and at least one reachable
network exists, an interface-attach on the first reachable network is
attempted before failing or associating.  The original claim fails because
the code does not retry the resolution after attaching
(`do_associate_ip_no_reresolution_cex`). -/
theorem do_associate_ip_attach_fallback (ipid sid : String) (env : AssocEnv)
    (i : Interface) :
    (env.suitable = some i →
      do_associate_ip (some ipid) (some sid) env =
        (if env.associate_ok then AssocOutcome.success i.port_id else .associateFailed,
          [Request.putFloating ipid i.port_id])) ∧
    (env.suitable = none →
      (tryAttach sid env.attach_result env.external_networks).1 = none →
      do_associate_ip (some ipid) (some sid) env =
        (.noSuitableInterface, (tryAttach sid env.attach_result env.external_networks).2) ∧
      ∀ req ∈ (do_associate_ip (some ipid) (some sid) env).2,
        ∃ n ∈ env.external_networks, req = Request.postInterface sid n) ∧
    (env.suitable = none →
      (tryAttach sid env.attach_result env.external_networks).1 = some i →
      do_associate_ip (some ipid) (some sid) env =
        (if env.associate_ok then AssocOutcome.success i.port_id else .associateFailed,
          (tryAttach sid env.attach_result env.external_networks).2 ++
            [Request.putFloating ipid i.port_id])) ∧
    (env.suitable = none → ∀ n rest, env.external_networks = n :: rest →
      Request.postInterface sid n ∈ (do_associate_ip (some ipid) (some sid) env).2) := by
  refine ⟨?_, ?_, ?_, ?_⟩
  · intro hs
    simp only [do_associate_ip, hs, runAssociate, List.nil_append]
    cases env.associate_ok <;> rfl
  · intro hs hT
    have heq : do_associate_ip (some ipid) (some sid) env =
        (.noSuitableInterface, (tryAttach sid env.attach_result env.external_networks).2) := by
      simp only [do_associate_ip, hs, hT]
    refine ⟨heq, ?_⟩
    rw [heq]
    exact tryAttach_trace sid env.attach_result env.external_networks
  · intro hs hT
    simp only [do_associate_ip, hs, hT, runAssociate]
    cases env.associate_ok <;> rfl
  · intro hs n rest hext
    have hmem : Request.postInterface sid n ∈
        (tryAttach sid env.attach_result env.external_networks).2 := by
      rw [hext]
      exact tryAttach_head sid env.attach_result n rest
    simp only [do_associate_ip, hs]
    cases hT : (tryAttach sid env.attach_result env.external_networks).1 with
    | none => exact hmem
    | some j =>
      simp only [runAssociate]
      cases env.associate_ok <;> exact List.mem_append_left _ hmem

theorem do_associate_ip_attach_fallback_witness :
    do_associate_ip (some "ip1") (some "srv")
        ⟨some ⟨"p7", some "n1", [⟨some "10.0.0.9", some "s1"⟩]⟩, [], fun _ => none, true⟩ =
      (AssocOutcome.success "p7", [Request.putFloating "ip1" "p7"]) :=
  (do_associate_ip_attach_fallback "ip1" "srv"
      ⟨some ⟨"p7", some "n1", [⟨some "10.0.0.9", some "s1"⟩]⟩, [], fun _ => none, true⟩
      ⟨"p7", some "n1", [⟨some "10.0.0.9", some "s1"⟩]⟩).1 rfl

/-- **C7 (counterexample).** Resolution yields none, the only reachable
network is n1, and attaching on n1 returns an interface with no fixed IPs
at all.  Re-resolving over that interface would still yield none (second
conjunct), so the claim as stated demands a no-reachable-network failure
with no association call; the code instead associates immediately with the
attached port and reports success — it never retries the resolution. -/
theorem do_associate_ip_no_reresolution_cex :
    do_associate_ip (some "ip1") (some "srv")
        ⟨none, ["n1"], fun _ => some ⟨"p9", some "n1", []⟩, true⟩ =
      (AssocOutcome.success "p9",
        [Request.postInterface "srv" "n1", Request.putFloating "ip1" "p9"]) ∧
    get_suitable_interface_for_floating_ip (some [⟨"p9", some "n1", []⟩]) ["n1"] = none := by
  exact ⟨by decide, by decide⟩

end OpenStackBot
